import Mathlib

/-!
Verification development for the contact-form component
(`src/components/ContactForm.tsx`): a zod validation schema
(`contactFormSchema`), an async submit handler (`onSubmit`) posting JSON to
`/api/send-email`, transient success/failure status, and a 5-second
status-clearing timer scheduled in the handler's `finally` block.

The embedding below mirrors the TypeScript source: JS strings are modelled
as Lean `String` (the `.min` length checks coincide with `String.length` on
the inputs considered here), the `fetch` outcome as an explicit
`FetchResult`, a thrown JS exception as the `.error` branch of an `Except`,
and the timer as an explicit scheduled fire time.
-/

/-- Structure for the three-field form payload: `type ContactFormData = z.infer<typeof contactFormSchema>`. -/
structure ContactFormData where
  name : String
  email : String
  message : String
deriving DecidableEq, Repr

/-- Error message of `z.string().min(3, ...)` on `name` (source line 9). -/
def nameMinMessage : String := "O nome precisa ter no mínimo 3 caracteres."

/-- Error message of `z.string().email(...)` on `email` (source line 10). -/
def emailFormatMessage : String := "Por favor, insira um email válido."

/-- Error message of `z.string().min(10, ...)` on `message` (source line 11). -/
def messageMinMessage : String := "A mensagem precisa ter no mínimo 10 caracteres."

/-- Characters admitted anywhere in the local part of an email by zod's
email regular expression: letters, digits, `_`, apostrophe, `+`, `-`, `.`
(the apostrophe is written via its code point). -/
def isLocalChar (c : Char) : Bool :=
  c.isAlpha || c.isDigit || c == '_' || c == Char.ofNat 39 || c == '+' || c == '-' || c == '.'

/-- Characters admitted as the final character of the local part by zod's
email regular expression: letters, digits, `_`, `+`, `-`. -/
def isLocalEndChar (c : Char) : Bool :=
  c.isAlpha || c.isDigit || c == '_' || c == '+' || c == '-'

/-- True when the character list contains no two consecutive dots,
mirroring the negative lookahead over `..` in zod's email regular
expression. -/
def noDoubleDot : List Char → Bool
  | [] => true
  | [_] => true
  | a :: b :: rest => !(a == '.' && b == '.') && noDoubleDot (b :: rest)

/-- Validity of the local part (before the `@`) under zod's email regular
expression: nonempty, every character admissible, not starting with a dot,
no consecutive dots, and ending in an admissible final character. -/
def localPartOk (l : List Char) : Bool :=
  match l with
  | [] => false
  | c :: _ =>
    !(c == '.') && l.all isLocalChar && noDoubleDot l &&
      (match l.getLast? with
       | some d => isLocalEndChar d
       | none => false)

/-- Validity of one non-final domain label under zod's email regular
expression: a letter or digit followed by letters, digits or hyphens. -/
def labelOk (l : List Char) : Bool :=
  match l with
  | [] => false
  | c :: rest => (c.isAlpha || c.isDigit) && rest.all (fun d => d.isAlpha || d.isDigit || d == '-')

/-- Validity of the final domain label (top-level domain) under zod's email
regular expression: at least two characters, all letters. -/
def tldOk (l : List Char) : Bool :=
  decide (2 ≤ l.length) && l.all Char.isAlpha

/-- Split a character list at every occurrence of a separator character,
keeping empty segments, as `String.split` does over its separator. -/
def splitOnChar (sep : Char) : List Char → List (List Char)
  | [] => [[]]
  | c :: rest =>
    if c == sep then [] :: splitOnChar sep rest
    else
      match splitOnChar sep rest with
      | [] => [[c]]
      | p :: ps => (c :: p) :: ps

/-- Validity of the domain (after the `@`): one or more labels separated by
dots, each non-final label matching `labelOk`, the final one `tldOk`. -/
def domainOk (domain : List Char) : Bool :=
  match (splitOnChar '.' domain).reverse with
  | [] => false
  | tld :: labelsRev => !labelsRev.isEmpty && tldOk tld && labelsRev.all labelOk

/-- Model of `z.string().email()` (source line 10): zod accepts a string
when it has exactly one `@`, a valid local part before it and a valid
domain after it. -/
def validEmail (s : String) : Bool :=
  match splitOnChar '@' s.toList with
  | [l, domain] => localPartOk l && domainOk domain
  | _ => false

/-- Per-field validation errors produced by the schema. -/
structure ValidationErrors where
  name : Option String
  email : Option String
  message : Option String
deriving DecidableEq, Repr

deriving instance DecidableEq for Except

/-- Check of `z.string().min(3, ...)` for the `name` field. -/
def checkName (s : String) : Option String :=
  if s.length < 3 then some nameMinMessage else none

/-- Check of `z.string().email(...)` for the `email` field. -/
def checkEmail (s : String) : Option String :=
  if validEmail s then none else some emailFormatMessage

/-- Check of `z.string().min(10, ...)` for the `message` field. -/
def checkMessage (s : String) : Option String :=
  if s.length < 10 then some messageMinMessage else none

/-- Model of `contactFormSchema` (source lines 8-12): parsing succeeds when
all three field checks pass, and otherwise fails with the map of per-field
errors. -/
def contactFormSchema (d : ContactFormData) : Except ValidationErrors ContactFormData :=
  if checkName d.name = none ∧ checkEmail d.email = none ∧ checkMessage d.message = none
  then .ok d
  else .error ⟨checkName d.name, checkEmail d.email, checkMessage d.message⟩

/-- Hexadecimal digit for a number below 16, used by the JSON escaping of
control characters. -/
def hexDigit (n : Nat) : Char :=
  if n < 10 then Char.ofNat (48 + n) else Char.ofNat (87 + n)

/-- JSON escaping of one character, following `JSON.stringify`: quote and
backslash are escaped, the named control escapes are used for backspace,
tab, newline, form feed and carriage return, other control characters get a
`\u00..` escape, and everything else is emitted verbatim. -/
def jsonEscapeChar (c : Char) : String :=
  if c == '"' then "\\\""
  else if c == '\\' then "\\\\"
  else if c == Char.ofNat 8 then "\\b"
  else if c == '\t' then "\\t"
  else if c == '\n' then "\\n"
  else if c == Char.ofNat 12 then "\\f"
  else if c == '\r' then "\\r"
  else if c.toNat < 32 then
    "\\u00" ++ String.mk [hexDigit (c.toNat / 16), hexDigit (c.toNat % 16)]
  else String.singleton c

/-- JSON encoding of a string value, per `JSON.stringify`. -/
def jsonEncodeString (s : String) : String :=
  "\"" ++ String.join (s.toList.map jsonEscapeChar) ++ "\""

/-- Model of `JSON.stringify(data)` (source line 39) for the form payload:
keys appear in field order `name`, `email`, `message`. -/
def jsonStringify (d : ContactFormData) : String :=
  "\x7b\"name\":" ++ jsonEncodeString d.name ++
    ",\"email\":" ++ jsonEncodeString d.email ++
    ",\"message\":" ++ jsonEncodeString d.message ++ "\x7d"

/-- Structure for one outbound HTTP request as built by the `fetch` call. -/
structure HttpRequest where
  url : String
  method : String
  contentType : String
  body : String
deriving DecidableEq, Repr

/-- The request issued by `fetch('/api/send-email', ...)` (source lines
34-40). -/
def sendEmailRequest (data : ContactFormData) : HttpRequest :=
  { url := "/api/send-email", method := "POST",
    contentType := "application/json", body := jsonStringify data }

/-- Outcome of the `fetch` call: either the promise resolves with a
response carrying an HTTP status, or it rejects (network failure). -/
inductive FetchResult where
  | response (status : Nat)
  | thrown
deriving DecidableEq, Repr

/-- The `Response.ok` flag of the fetch API: true exactly for statuses 200
through 299. -/
def responseOk (status : Nat) : Bool :=
  decide (200 ≤ status) && decide (status ≤ 299)

/-- Success banner text set on source line 48. -/
def successMessage : String := "Mensagem enviada com sucesso! Obrigado."

/-- Failure banner text set on source line 54. -/
def failureMessage : String := "Ocorreu um erro ao enviar. Tente novamente."

/-- Structure for the `submitStatus` state value (source line 27). -/
structure SubmitStatus where
  success : Bool
  message : String
deriving DecidableEq, Repr

/-- Component state visible to the submit handler: the form field values
and the optional status banner. -/
structure FormState where
  fields : ContactFormData
  submitStatus : Option SubmitStatus
deriving DecidableEq, Repr

/-- The field values after `reset()` (source line 49): no default values
are configured, so all fields clear to the empty string. -/
def emptyInput : ContactFormData := ⟨"", "", ""⟩

/-- Model of the `try` block after the `fetch` resolves (source lines
42-45): a rejected fetch is a thrown exception, and a non-ok response
status raises `new Error('Houve uma falha na resposta do servidor.')`;
the `.error` branch models the exception reaching the `catch`. -/
def tryBlock (outcome : FetchResult) : Except String Unit :=
  match outcome with
  | .thrown => .error "fetch failed"
  | .response status =>
    if responseOk status then .ok ()
    else .error "Houve uma falha na resposta do servidor."

/-- True when the try block of the handler raises an exception for this
fetch outcome. -/
def tryBlockFails (outcome : FetchResult) : Bool :=
  match tryBlock outcome with
  | .ok _ => false
  | .error _ => true

/-- First action of `onSubmit` (source line 31): `setSubmitStatus(null)`
clears any prior status. -/
def clearStatus (st : FormState) : FormState :=
  { st with submitStatus := none }

/-- The `try`/`catch` part of `onSubmit` after the request resolves
(source lines 33-55): on success the status becomes the success banner and
`reset()` clears the fields; any caught exception sets the failure banner
and leaves the fields unchanged. -/
def outcomeStep (st : FormState) (outcome : FetchResult) : FormState :=
  match tryBlock outcome with
  | .ok _ =>
    { st with submitStatus := some ⟨true, successMessage⟩, fields := emptyInput }
  | .error _ =>
    { st with submitStatus := some ⟨false, failureMessage⟩ }

/-- Result of one complete run of `onSubmit`: the state afterwards, the
requests it issued, and the delays of the clearing timers it scheduled. -/
structure SubmitResult where
  state : FormState
  requests : List HttpRequest
  clearDelays : List Nat
deriving DecidableEq, Repr

/-- Model of one complete run of `onSubmit` (source lines 30-63): clear the
prior status, issue exactly one POST, interpret the outcome in the
`try`/`catch`, and schedule one 5000 ms clearing timer in `finally`. -/
def onSubmit (st : FormState) (data : ContactFormData) (outcome : FetchResult) : SubmitResult :=
  { state := outcomeStep (clearStatus st) outcome,
    requests := [sendEmailRequest data],
    clearDelays := [5000] }

/-- Number of active status banners in a state: 1 when `submitStatus` is
set, otherwise 0. -/
def statusCount (st : FormState) : Nat :=
  match st.submitStatus with
  | none => 0
  | some _ => 1

/-- Result of a guarded submit attempt through react-hook-form's
`handleSubmit(onSubmit)` (source line 77), also recording the per-field
errors rendered when validation fails. -/
structure HandleResult where
  state : FormState
  errors : Option ValidationErrors
  requests : List HttpRequest
  clearDelays : List Nat
deriving DecidableEq, Repr

/-- Model of `handleSubmit(onSubmit)` (source line 77): when the resolver
rejects the current field values, `onSubmit` is not invoked — no request,
no status change, no timer — and the field errors are rendered; when it
accepts, `onSubmit` runs on the validated data. -/
def handleSubmit (st : FormState) (outcome : FetchResult) : HandleResult :=
  match contactFormSchema st.fields with
  | .error e => { state := st, errors := some e, requests := [], clearDelays := [] }
  | .ok d =>
    let r := onSubmit st d outcome
    { state := r.state, errors := none, requests := r.requests, clearDelays := r.clearDelays }

/-- Disabled flags of the rendered controls: the three inputs (source lines
92, 104, 116) and the submit button (source line 123) all carry
`disabled=\x7bisSubmitting\x7d`. -/
structure RenderedForm where
  nameDisabled : Bool
  emailDisabled : Bool
  messageDisabled : Bool
  submitDisabled : Bool
deriving DecidableEq, Repr

/-- Rendering of the form controls as a function of the `isSubmitting`
flag from react-hook-form's `formState`. -/
def renderForm (isSubmitting : Bool) : RenderedForm :=
  ⟨isSubmitting, isSubmitting, isSubmitting, isSubmitting⟩

/-- UI-level submission state: the `isSubmitting` flag and the number of
submissions currently in flight. -/
structure UiState where
  isSubmitting : Bool
  inFlight : Nat
deriving DecidableEq, Repr

/-- A user submit gesture: a disabled submit control dispatches nothing, so
the state is unchanged; otherwise a submission starts, setting
`isSubmitting` while the handler runs. -/
def trySubmit (u : UiState) : UiState :=
  if (renderForm u.isSubmitting).submitDisabled then u
  else { isSubmitting := true, inFlight := u.inFlight + 1 }

/-- Completion of the in-flight submission: `isSubmitting` drops back to
false when the async handler returns. -/
def completeSubmit (u : UiState) : UiState :=
  { isSubmitting := false, inFlight := u.inFlight - 1 }

/-- States the UI can reach from the mounted form (not submitting, nothing
in flight) by submit gestures and handler completions. -/
inductive UiReachable : UiState → Prop
  | init : UiReachable ⟨false, 0⟩
  | submit {u : UiState} : UiReachable u → UiReachable (trySubmit u)
  | complete {u : UiState} : UiReachable u → UiReachable (completeSubmit u)

/-- Timed component state: field values, the optional status banner, and
the fire times of the pending `setTimeout` clearing callbacks (source
lines 59-61), which the component never cancels. -/
structure MachineState where
  fields : ContactFormData
  submitStatus : Option SubmitStatus
  timers : List Nat
deriving DecidableEq, Repr

/-- Instantaneous events of a submit attempt: entry into `onSubmit`
(which clears the status) and resolution of the request (the
`try`/`catch`/`finally` tail). -/
inductive Ev where
  | start
  | complete (data : ContactFormData) (outcome : FetchResult)
deriving DecidableEq, Repr

/-- Fire every pending timer due by time `t`: each due callback runs
`setSubmitStatus(null)` and is removed from the pending list. -/
def fireDue (t : Nat) (st : MachineState) : MachineState :=
  if st.timers.any (fun u => decide (u ≤ t)) then
    { st with submitStatus := none, timers := st.timers.filter (fun u => decide (t < u)) }
  else st

/-- Effect of one event at time `t`: `start` clears the status (source
line 31); `complete` sets the status from the outcome, clears the fields
on success, and schedules a clearing timer for `t + 5000` in `finally`. -/
def stepEv (t : Nat) (st : MachineState) : Ev → MachineState
  | .start => { st with submitStatus := none }
  | .complete _ outcome =>
    match tryBlock outcome with
    | .ok _ =>
      { st with submitStatus := some ⟨true, successMessage⟩,
                fields := emptyInput, timers := st.timers ++ [t + 5000] }
    | .error _ =>
      { st with submitStatus := some ⟨false, failureMessage⟩,
                timers := st.timers ++ [t + 5000] }

/-- Run a time-ordered list of events and observe the state at time `tq`:
before each event (and before the final observation) all timers due by
that moment fire. -/
def runTrace (st : MachineState) : List (Nat × Ev) → Nat → MachineState
  | [], tq => fireDue tq st
  | (t, e) :: rest, tq => runTrace (stepEv t (fireDue t st) e) rest tq

/-- The valid example payload from the specification. -/
def anaInput : ContactFormData :=
  ⟨"Ana Silva", "ana@example.com", "Olá, gostaria de saber mais."⟩

/-- Initial timed state holding the example payload, with no banner and no
pending timer. -/
def anaMachine : MachineState := ⟨anaInput, none, []⟩

/-- Two back-to-back successful submit attempts of the example payload:
the first completes at 1000 ms, the second starts at 2000 ms and completes
at 3000 ms, so clearing timers end up pending for 6000 ms and 8000 ms. -/
def twoSubmitTrace : List (Nat × Ev) :=
  [(0, .start), (1000, .complete anaInput (.response 200)),
   (2000, .start), (3000, .complete anaInput (.response 200))]


/-- Lemma: the name check passes exactly when the name has at least 3
characters. -/
theorem checkName_eq_none (s : String) : checkName s = none ↔ 3 ≤ s.length := by
  simp only [checkName, ite_eq_right_iff]
  constructor
  · intro h
    by_contra hc
    exact Option.some_ne_none _ (h (by omega))
  · intro h hc
    omega

/-- Lemma: the email check passes exactly when the email matches the
schema's email grammar. -/
theorem checkEmail_eq_none (s : String) : checkEmail s = none ↔ validEmail s = true := by
  simp only [checkEmail]
  rcases h : validEmail s <;> simp [h]

/-- Lemma: the message check passes exactly when the message has at least
10 characters. -/
theorem checkMessage_eq_none (s : String) : checkMessage s = none ↔ 10 ≤ s.length := by
  simp only [checkMessage, ite_eq_right_iff]
  constructor
  · intro h
    by_contra hc
    exact Option.some_ne_none _ (h (by omega))
  · intro h hc
    omega

/-- Lemma: the schema succeeds (returning the payload) exactly when all
three field checks pass. -/
theorem contactFormSchema_ok_iff (d : ContactFormData) :
    contactFormSchema d = .ok d ↔
      (checkName d.name = none ∧ checkEmail d.email = none ∧ checkMessage d.message = none) := by
  unfold contactFormSchema
  split
  · simp [*]
  · simp [*]

/-- Lemma: when some field check fails, the schema fails with exactly the
three check results as the error map. -/
theorem contactFormSchema_error (d : ContactFormData)
    (h : ¬(checkName d.name = none ∧ checkEmail d.email = none ∧ checkMessage d.message = none)) :
    contactFormSchema d =
      .error ⟨checkName d.name, checkEmail d.email, checkMessage d.message⟩ := by
  unfold contactFormSchema
  split
  · exact absurd ‹_› h
  · rfl

/-- C1: For every form payload, validation succeeds if and only if the name
has at least 3 characters, the email matches the schema's email grammar and
the message has at least 10 characters; each violated rule produces its
field-level error message in the error map. -/
theorem contactFormSchema_spec (d : ContactFormData) :
    ((contactFormSchema d = .ok d) ↔
      (3 ≤ d.name.length ∧ validEmail d.email = true ∧ 10 ≤ d.message.length))
    ∧ (d.name.length < 3 →
        ∃ e, contactFormSchema d = .error e ∧ e.name = some nameMinMessage)
    ∧ (validEmail d.email = false →
        ∃ e, contactFormSchema d = .error e ∧ e.email = some emailFormatMessage)
    ∧ (d.message.length < 10 →
        ∃ e, contactFormSchema d = .error e ∧ e.message = some messageMinMessage) := by
  refine ⟨?_, ?_, ?_, ?_⟩
  · rw [contactFormSchema_ok_iff, checkName_eq_none, checkEmail_eq_none, checkMessage_eq_none]
  · intro h
    refine ⟨_, contactFormSchema_error d (fun hc => ?_), by simp [checkName, h]⟩
    rw [checkName_eq_none] at hc
    omega
  · intro h
    refine ⟨_, contactFormSchema_error d (fun hc => ?_), by simp [checkEmail, h]⟩
    rw [checkEmail_eq_none] at hc
    simp [h] at hc
  · intro h
    refine ⟨_, contactFormSchema_error d (fun hc => ?_), by simp [checkMessage, h]⟩
    rw [checkMessage_eq_none] at hc
    omega

/-- C2: When the request resolves with an HTTP ok (2xx) status, the handler
clears every form field and sets the status to the success variant carrying
the success message. -/
theorem onSubmit_success (st : FormState) (data : ContactFormData) (status : Nat)
    (h : responseOk status = true) :
    (onSubmit st data (.response status)).state.fields = emptyInput
    ∧ (onSubmit st data (.response status)).state.submitStatus =
        some ⟨true, "Mensagem enviada com sucesso! Obrigado."⟩ := by
  simp [onSubmit, outcomeStep, clearStatus, tryBlock, h, successMessage]

/-- Witness for C2 at a concrete state and a 200 response. -/
theorem onSubmit_success_witness :
    (onSubmit ⟨anaInput, none⟩ anaInput (.response 200)).state.fields = emptyInput
    ∧ (onSubmit ⟨anaInput, none⟩ anaInput (.response 200)).state.submitStatus =
        some ⟨true, "Mensagem enviada com sucesso! Obrigado."⟩ :=
  onSubmit_success ⟨anaInput, none⟩ anaInput 200 (by decide)

/-- C3: When the request throws or resolves with a non-ok status, the
handler sets the single failure variant with the failure message and leaves
the form fields unchanged. -/
theorem onSubmit_failure (st : FormState) (data : ContactFormData) (outcome : FetchResult)
    (h : outcome = .thrown ∨ ∃ s, outcome = .response s ∧ responseOk s = false) :
    (onSubmit st data outcome).state.submitStatus =
        some ⟨false, "Ocorreu um erro ao enviar. Tente novamente."⟩
    ∧ (onSubmit st data outcome).state.fields = st.fields := by
  rcases h with h | ⟨s, hs, hok⟩
  · subst h
    simp [onSubmit, outcomeStep, clearStatus, tryBlock, failureMessage]
  · subst hs
    simp [onSubmit, outcomeStep, clearStatus, tryBlock, hok, failureMessage]

/-- Witness for C3 at a concrete state and a thrown request. -/
theorem onSubmit_failure_witness :
    (onSubmit ⟨anaInput, none⟩ anaInput .thrown).state.submitStatus =
        some ⟨false, "Ocorreu um erro ao enviar. Tente novamente."⟩
    ∧ (onSubmit ⟨anaInput, none⟩ anaInput .thrown).state.fields = anaInput :=
  onSubmit_failure ⟨anaInput, none⟩ anaInput .thrown (Or.inl rfl)

/-- C4: Every run of the handler issues exactly one POST to
/api/send-email with content type application/json and the JSON encoding
of the payload as body, with no retry; on the specification's example
payload the body is the matching JSON object, and that payload validates. -/
theorem onSubmit_single_post (st : FormState) (data : ContactFormData) (outcome : FetchResult) :
    (onSubmit st data outcome).requests =
      [{ url := "/api/send-email", method := "POST",
         contentType := "application/json", body := jsonStringify data }]
    ∧ (onSubmit st data outcome).requests.length = 1
    ∧ jsonStringify anaInput =
        "\x7b\"name\":\"Ana Silva\",\"email\":\"ana@example.com\",\"message\":\"Olá, gostaria de saber mais.\"\x7d"
    ∧ contactFormSchema anaInput = .ok anaInput :=
  ⟨rfl, rfl, rfl, by decide⟩

/-- C5 counterexample: after two successful submit attempts of the example
payload (first completing at 1000 ms, second at 3000 ms), the state at
5000 ms holds two pending clearing timers at once, and the status set at
3000 ms is already gone at 6000 ms — cleared by the stale timer of the
first attempt only 3 seconds after being set, not 5. -/
theorem staleTimer_counterexample :
    (runTrace anaMachine twoSubmitTrace 5000).timers = [6000, 8000]
    ∧ (runTrace anaMachine twoSubmitTrace 5000).submitStatus = some ⟨true, successMessage⟩
    ∧ (runTrace anaMachine twoSubmitTrace 6000).submitStatus = none :=
  ⟨rfl, rfl, rfl⟩

/-- C5 amended: every completion of a submit attempt sets a status and
schedules one clearing timer for 5000 ms later without cancelling earlier
timers, so the status is absent once any scheduled time (in particular
completion + 5000 ms) has passed; when no earlier timer was pending, the
status survives until exactly 5000 ms after completion. -/
theorem clearTimer_behavior (st : MachineState) (t tq : Nat)
    (d : ContactFormData) (o : FetchResult) :
    ((stepEv t st (.complete d o)).submitStatus).isSome = true
    ∧ (stepEv t st (.complete d o)).timers = st.timers ++ [t + 5000]
    ∧ (t + 5000 ≤ tq → (fireDue tq (stepEv t st (.complete d o))).submitStatus = none)
    ∧ (st.timers = [] → tq < t + 5000 →
        (fireDue tq (stepEv t st (.complete d o))).submitStatus =
          (stepEv t st (.complete d o)).submitStatus) := by
  have hshape : ((stepEv t st (.complete d o)).submitStatus).isSome = true
      ∧ (stepEv t st (.complete d o)).timers = st.timers ++ [t + 5000] := by
    unfold stepEv
    rcases htb : tryBlock o with _ | _ <;> simp [htb]
  refine ⟨hshape.1, hshape.2, ?_, ?_⟩
  · intro hle
    unfold fireDue
    rw [hshape.2]
    simp [List.any_append, hle]
  · intro hnil hlt
    unfold fireDue
    rw [hshape.2, hnil]
    simp [Nat.not_le.mpr hlt]

/-- C6: In every state at most one status banner is active, a submit
attempt's first action leaves no status at all, and the handler's final
state is exactly the outcome evaluation applied to the cleared state, so
the prior status is gone before the outcome is considered. -/
theorem submitStatus_invariant (st : FormState) (d : ContactFormData)
    (o : FetchResult) (t : Nat) (m : MachineState) :
    statusCount st ≤ 1
    ∧ statusCount (clearStatus st) = 0
    ∧ (onSubmit st d o).state = outcomeStep (clearStatus st) o
    ∧ statusCount (onSubmit st d o).state ≤ 1
    ∧ (stepEv t m .start).submitStatus = none := by
  refine ⟨?_, rfl, rfl, ?_, rfl⟩
  · unfold statusCount
    cases st.submitStatus <;> simp
  · unfold statusCount onSubmit outcomeStep
    cases tryBlock o <;> simp

/-- C7: When validation rejects the current field values, the guarded
submit is blocked: no request is issued, no timer is scheduled, the state
(status included) is untouched, and the field errors are rendered. -/
theorem handleSubmit_blocks (st : FormState) (outcome : FetchResult)
    (e : ValidationErrors) (h : contactFormSchema st.fields = .error e) :
    (handleSubmit st outcome).requests = []
    ∧ (handleSubmit st outcome).clearDelays = []
    ∧ (handleSubmit st outcome).state = st
    ∧ (handleSubmit st outcome).errors = some e := by
  simp [handleSubmit, h]

/-- Witness for C7 at a concrete state whose fields violate all three
rules. -/
theorem handleSubmit_blocks_witness :
    (handleSubmit ⟨⟨"Jo", "bad", "short"⟩, none⟩ .thrown).requests = []
    ∧ (handleSubmit ⟨⟨"Jo", "bad", "short"⟩, none⟩ .thrown).clearDelays = []
    ∧ (handleSubmit ⟨⟨"Jo", "bad", "short"⟩, none⟩ .thrown).state = ⟨⟨"Jo", "bad", "short"⟩, none⟩
    ∧ (handleSubmit ⟨⟨"Jo", "bad", "short"⟩, none⟩ .thrown).errors =
        some ⟨some nameMinMessage, some emailFormatMessage, some messageMinMessage⟩ :=
  handleSubmit_blocks ⟨⟨"Jo", "bad", "short"⟩, none⟩ .thrown
    ⟨some nameMinMessage, some emailFormatMessage, some messageMinMessage⟩
    (by decide)

/-- Lemma: in every UI state reachable from the mounted form, at most one
submission is in flight, and the `isSubmitting` flag is set exactly when
one is. -/
theorem uiReachable_invariant (u : UiState) (h : UiReachable u) :
    u.inFlight ≤ 1 ∧ (u.isSubmitting = true ↔ u.inFlight = 1) := by
  induction h with
  | init => simp
  | @submit v _ ih =>
    rcases ih with ⟨h1, h2⟩
    unfold trySubmit renderForm
    rcases hb : v.isSubmitting with _ | _
    · have hz : v.inFlight = 0 := by
        rcases Nat.lt_or_ge v.inFlight 1 with h0 | h0
        · omega
        · exact absurd (h2.mpr (by omega)) (by simp [hb])
      simp [hb, hz]
    · simp only [hb]
      exact ⟨h1, h2⟩
  | @complete v _ ih =>
    rcases ih with ⟨h1, _⟩
    unfold completeSubmit
    simp
    omega

/-- C8: In every reachable UI state at most one submission is in flight,
and while one is (`isSubmitting` set) all three inputs and the submit
control are rendered disabled and a submit gesture leaves the state
unchanged. -/
theorem inFlight_disabled (u : UiState) (h : UiReachable u) :
    u.inFlight ≤ 1
    ∧ (u.isSubmitting = true →
        renderForm u.isSubmitting = ⟨true, true, true, true⟩ ∧ trySubmit u = u) := by
  refine ⟨(uiReachable_invariant u h).1, fun hs => ⟨by simp [renderForm, hs], ?_⟩⟩
  simp [trySubmit, renderForm, hs]

/-- Witness for C8 at the reachable state with one submission in flight. -/
theorem inFlight_disabled_witness :
    (⟨true, 1⟩ : UiState).inFlight ≤ 1
    ∧ ((⟨true, 1⟩ : UiState).isSubmitting = true →
        renderForm (⟨true, 1⟩ : UiState).isSubmitting = ⟨true, true, true, true⟩
        ∧ trySubmit ⟨true, 1⟩ = ⟨true, 1⟩) :=
  inFlight_disabled ⟨true, 1⟩ (UiReachable.submit UiReachable.init)

/-- C9: The handler is total over request outcomes: for every outcome it
returns normally with a status set — the failure banner exactly when the
try block raised, the success banner otherwise — and its `finally` block
always schedules the single 5000 ms clearing timer. -/
theorem onSubmit_total (st : FormState) (data : ContactFormData) (outcome : FetchResult) :
    ((onSubmit st data outcome).state.submitStatus).isSome = true
    ∧ (onSubmit st data outcome).clearDelays = [5000]
    ∧ (tryBlockFails outcome = true →
        (onSubmit st data outcome).state.submitStatus = some ⟨false, failureMessage⟩)
    ∧ (tryBlockFails outcome = false →
        (onSubmit st data outcome).state.submitStatus = some ⟨true, successMessage⟩) := by
  unfold onSubmit outcomeStep clearStatus tryBlockFails
  cases tryBlock outcome <;> simp

/-- C10: The handler is deterministic: two runs from states with the same
field values, on the same payload and the same request outcome, end in
identical states, and the status set is always exactly the success variant
with the fixed success text or the failure variant with the fixed failure
text. -/
theorem onSubmit_deterministic (st₁ st₂ : FormState) (data : ContactFormData)
    (outcome : FetchResult) (h : st₁.fields = st₂.fields) :
    (onSubmit st₁ data outcome).state = (onSubmit st₂ data outcome).state
    ∧ ((onSubmit st₁ data outcome).state.submitStatus =
          some ⟨true, "Mensagem enviada com sucesso! Obrigado."⟩
        ∨ (onSubmit st₁ data outcome).state.submitStatus =
          some ⟨false, "Ocorreu um erro ao enviar. Tente novamente."⟩) := by
  unfold onSubmit outcomeStep clearStatus
  cases tryBlock outcome <;> simp [h, successMessage, failureMessage]

/-- Witness for C10 at two concrete states sharing the example payload's
fields but differing in prior status, on a thrown request. -/
theorem onSubmit_deterministic_witness :
    (onSubmit ⟨anaInput, none⟩ anaInput .thrown).state =
      (onSubmit ⟨anaInput, some ⟨true, successMessage⟩⟩ anaInput .thrown).state
    ∧ ((onSubmit ⟨anaInput, none⟩ anaInput .thrown).state.submitStatus =
          some ⟨true, "Mensagem enviada com sucesso! Obrigado."⟩
        ∨ (onSubmit ⟨anaInput, none⟩ anaInput .thrown).state.submitStatus =
          some ⟨false, "Ocorreu um erro ao enviar. Tente novamente."⟩) :=
  onSubmit_deterministic ⟨anaInput, none⟩ ⟨anaInput, some ⟨true, successMessage⟩⟩
    anaInput .thrown rfl
